import Mathlib

/-!
Verification of the user-isolated file storage and quota-enforcement core of
simple_upload_server (src/server.js), as a shallow embedding in Lean.

The embedding models:
- formatFileSize (server.js 284-290),
- the POST /api/upload transaction (server.js 293-355): multer writes the
  batch to the user directory first (diskStorage, lines 59-70), then the
  route rescans the directory, looks the user up, and either accepts or
  rolls the batch back by unlinking every written file,
- the file catalog GET /api/files (server.js 224-248),
- member path resolution for GET /download/:filename (358-365) and
  DELETE /api/files/:filename (368-379), which is a bare path.join with an
  existence check and no containment check,
- getUserUploadDir (server.js 18-23).

Directories are modeled as lists of entries; a nonexistent directory is
Option.none. JavaScript numbers on the quota path are integers (byte
counts), modeled as Nat; the usage_percentage expression can produce NaN
or Infinity (division by a zero quota), so percentages live in a small
JsNumber type over the rationals.
-/

namespace UploadServer

/-! ### formatFileSize (server.js 284-290) -/

/-- Unit names of line 287: const sizes = [Bytes, KB, MB, GB, TB]. -/
def sizeUnits : List String := ["Bytes", "KB", "MB", "GB", "TB"]

/-- Fuel-driven base-1024 logarithm: largest i with 1024 ^ i ≤ n (and 0 for
n < 1024). This is the exact value of Math.floor(Math.log(n) / Math.log(1024))
on line 288 for the integer byte counts involved. -/
def log1024Aux : Nat → Nat → Nat
  | 0, _ => 0
  | fuel + 1, n => if n < 1024 then 0 else log1024Aux fuel (n / 1024) + 1

/-- Base-1024 logarithm of a byte count. -/
def log1024 (n : Nat) : Nat := log1024Aux n n

/-- Render h / 100 the way JavaScript prints parseFloat(x.toFixed(2)):
at most two decimal places with trailing zeros dropped. -/
def renderHundredths (h : Nat) : String :=
  let q := h / 100
  let r := h % 100
  if r = 0 then toString q
  else if r % 10 = 0 then toString q ++ "." ++ toString (r / 10)
  else if r < 10 then toString q ++ ".0" ++ toString r
  else toString q ++ "." ++ toString r

/-- formatFileSize (server.js 284-290): 0 maps to "0 Bytes"; otherwise pick
i = floor(log_1024 bytes), round bytes / 1024 ^ i to two decimals
(toFixed(2), half rounding up), drop trailing zeros (parseFloat), and append
the unit sizes[i]. The rounding is carried out exactly in hundredths. -/
def formatFileSize (bytes : Nat) : String :=
  if bytes = 0 then "0 Bytes"
  else
    let i := log1024 bytes
    let den := 1024 ^ i
    let h := (bytes * 100 * 2 + den) / (2 * den)
    renderHundredths h ++ " " ++ sizeUnits.getD i "undefined"

/-! ### The upload transaction (server.js 293-355)

An Entry is one file physically present directly under the user directory:
its on-disk name, its stat size, and an opaque tag standing for the byte
content. multer stages each incoming file to path.join(userDir, originalname)
with a truncating write, so a same-named existing file is overwritten in
place and a fresh name is appended (readdir order). -/

/-- A file stored directly under a user storage root. -/
structure Entry where
  name : String
  size : Nat
  data : Nat
deriving DecidableEq

/-- One incoming multipart file: the declared original name, the number of
bytes multer wrote (file.size), and an opaque content tag. -/
structure IncomingFile where
  originalname : String
  size : Nat
  data : Nat
deriving DecidableEq

/-- multer diskStorage write of one file (server.js 59-70): the destination
is the user directory and the filename is file.originalname, so the write
truncates and replaces a same-named entry, otherwise appends a new one. -/
def writeEntry (files : List Entry) (f : IncomingFile) : List Entry :=
  if files.any (fun e => e.name = f.originalname) then
    files.map (fun e => if e.name = f.originalname then ⟨e.name, f.size, f.data⟩ else e)
  else
    files ++ [⟨f.originalname, f.size, f.data⟩]

/-- All files of the batch written in order, before the route callback runs. -/
def multerWrite (files : List Entry) (batch : List IncomingFile) : List Entry :=
  batch.foldl writeEntry files

/-- Directory scan of server.js 308-317 (and 261-268): sum the stat size of
every direct entry. -/
def usageOf (files : List Entry) : Nat := files.foldl (fun s e => s + e.size) 0

/-- The scan guarded by fs.existsSync: a nonexistent directory scans to 0. -/
def scanUsage (dir : Option (List Entry)) : Nat :=
  match dir with
  | none => 0
  | some files => usageOf files

/-- fs.unlinkSync of path.join(userDir, name): removes the entry at that
path, or throws ENOENT (none) when no entry with that name exists. -/
def unlinkSync (files : List Entry) (n : String) : Option (List Entry) :=
  if files.any (fun e => e.name = n) then some (files.filter (fun e => e.name != n))
  else none

/-- req.files.forEach(file => fs.unlinkSync(file.path)) — server.js 323 and
333. Unlinks the batch paths in order. When the batch repeats a filename,
req.files holds two entries with the same path; the second unlinkSync finds
the path already removed, throws ENOENT, and the throw aborts the forEach:
already-unlinked files stay gone and later batch files remain on disk. The
Bool records whether the loop threw, paired with the directory content at
that point. -/
def rollback (files : List Entry) (batch : List IncomingFile) : Bool × List Entry :=
  match batch with
  | [] => (false, files)
  | f :: rest =>
    match unlinkSync files f.originalname with
    | none => (true, files)
    | some files2 => rollback files2 rest

/-- totalNewSize = req.files.reduce((sum, file) => sum + file.size, 0) — line 328. -/
def totalSize (batch : List IncomingFile) : Nat :=
  batch.foldl (fun s f => s + f.size) 0

/-- A JavaScript number as produced on the quota path: NaN, positive
infinity, or a finite rational. -/
inductive JsNumber where
  | nan
  | inf
  | val (q : ℚ)
deriving DecidableEq

/-- JavaScript division a / b for the nonnegative operands occurring here:
0 / 0 is NaN, positive / 0 is Infinity. -/
def jsDiv (a b : ℚ) : JsNumber :=
  if b = 0 then (if a = 0 then JsNumber.nan else JsNumber.inf) else JsNumber.val (a / b)

/-- Multiplication of such a number by the literal 100. -/
def jsMul100 : JsNumber → JsNumber
  | JsNumber.nan => JsNumber.nan
  | JsNumber.inf => JsNumber.inf
  | JsNumber.val q => JsNumber.val (q * 100)

/-- Math.min(100, x): NaN propagates, Infinity clamps to 100. -/
def jsMin100 : JsNumber → JsNumber
  | JsNumber.nan => JsNumber.nan
  | JsNumber.inf => JsNumber.val 100
  | JsNumber.val q => JsNumber.val (min 100 q)

/-- usage_percentage of line 351: Math.min(100, (newTotal / quotaBytes) * 100),
with no guard against quotaBytes = 0. -/
def usagePercentage (newTotal quotaBytes : Nat) : JsNumber :=
  jsMin100 (jsMul100 (jsDiv (newTotal : ℚ) (quotaBytes : ℚ)))

/-- Outcome of POST /api/upload, carrying the response fields the claims
mention: the reject message embeds formatFileSize(currentUsage) and
formatFileSize(newTotal - quotaBytes) (line 335), the accept response
carries storage_used, storage_quota and usage_percentage (lines 339-352).
thrown is an ENOENT escaping from a cleanup forEach (lines 323 and 333)
before the response line runs, so no rejection or error response is sent. -/
inductive UploadResult where
  | noFiles
  | dbError
  | thrown
  | rejected (usedReported overBy : Nat)
  | accepted (storageUsed quotaBytes : Nat) (percent : JsNumber)
deriving DecidableEq

/-- Whether the result is the line 339-352 success response. -/
def UploadResult.isAccepted : UploadResult → Bool
  | UploadResult.accepted _ _ _ => true
  | _ => false

/-- Whether the result is the line 331-337 quota rejection. -/
def UploadResult.isRejected : UploadResult → Bool
  | UploadResult.rejected _ _ => true
  | _ => false

/-- POST /api/upload (server.js 293-355) as a state transformer on the user
directory. By the time the route callback runs, multer has already written
every batch file into the directory (creating it if absent); the callback
then scans the directory (the scan therefore already includes the batch),
looks the user up (none models a db error or missing user, line 321), adds
the declared sizes on top of the scan, and compares against
storage_quota_mb * 1024 * 1024. Both failure paths run the cleanup forEach
over the batch paths before their response line; if that loop throws, the
response is never sent (thrown). -/
def uploadTransaction (dir : Option (List Entry)) (userQuotaMB : Option Nat)
    (batch : List IncomingFile) : UploadResult × Option (List Entry) :=
  if batch = [] then (UploadResult.noFiles, dir)
  else
    let written := multerWrite (dir.getD []) batch
    let currentUsage := usageOf written
    match userQuotaMB with
    | none =>
      let rb := rollback written batch
      (if rb.1 then UploadResult.thrown else UploadResult.dbError, some rb.2)
    | some quotaMB =>
      let quotaBytes := quotaMB * 1024 * 1024
      let newTotal := currentUsage + totalSize batch
      if quotaBytes < newTotal then
        let rb := rollback written batch
        (if rb.1 then UploadResult.thrown
         else UploadResult.rejected currentUsage (newTotal - quotaBytes), some rb.2)
      else
        (UploadResult.accepted newTotal quotaBytes (usagePercentage newTotal quotaBytes),
          some written)

/-! ### The file catalog (server.js 224-248) -/

/-- A direct directory entry as seen by readdir plus statSync: name, size,
and modification time (epoch milliseconds). -/
structure DirEntry where
  name : String
  size : Nat
  mtime : Nat
deriving DecidableEq

/-- The descriptor returned per file by GET /api/files (lines 237-243). -/
structure FileDescriptor where
  name : String
  size : Nat
  sizeFormatted : String
  modified : Nat
  url : String
deriving DecidableEq

/-- Lines 237-243: name, size, sizeFormatted, modified, url. -/
def mkDescriptor (f : DirEntry) : FileDescriptor :=
  ⟨f.name, f.size, formatFileSize f.size, f.mtime, "/download/" ++ f.name⟩

/-- The comparator of line 244, (a, b) => b.modified - a.modified: a comes
first when its modification time is the later one. -/
def descLE (a b : FileDescriptor) : Bool := b.modified ≤ a.modified

/-- The .sort(...) call of line 244. -/
def sortByModifiedDesc (l : List FileDescriptor) : List FileDescriptor :=
  l.mergeSort descLE

/-- GET /api/files (lines 224-248): empty for a nonexistent directory,
otherwise one descriptor per direct entry, most recently modified first. -/
def listFiles (dir : Option (List DirEntry)) : List FileDescriptor :=
  match dir with
  | none => []
  | some files => sortByModifiedDesc (files.map mkDescriptor)

/-! ### Member path resolution (server.js 358-365 and 368-379)

node path.join(userDir, filename) concatenates with a separator and then
normalizes the result: empty and dot segments vanish and a dotdot segment
pops the previous one (at the root of an absolute path it vanishes). Paths
are modeled as an absolute flag plus a segment list. -/

/-- An absolute or relative POSIX path, as an absolute flag and segments. -/
structure JsPath where
  absolute : Bool
  segs : List String
deriving DecidableEq

/-- One step of node path normalization over a reversed segment stack. -/
def normStep (isAbsolute : Bool) (stack : List String) (seg : String) : List String :=
  if seg = "" ∨ seg = "." then stack
  else if seg = ".." then
    match stack with
    | [] => if isAbsolute then [] else [".."]
    | top :: rest => if top = ".." then ".." :: top :: rest else rest
  else seg :: stack

/-- node path.join(p, name): append the segments of name and normalize. -/
def joinPath (p : JsPath) (nameSegs : List String) : JsPath :=
  ⟨p.absolute, ((p.segs ++ nameSegs).foldl (normStep p.absolute) []).reverse⟩

/-- Split a requested filename on the / separator. -/
def splitOnSlash : List Char → List (List Char)
  | [] => [[]]
  | c :: rest =>
    if c = '/' then [] :: splitOnSlash rest
    else
      match splitOnSlash rest with
      | [] => [[c]]
      | g :: gs => (c :: g) :: gs

/-- Segments of a requested filename. -/
def splitSegs (s : String) : List String :=
  (splitOnSlash s.toList).map (fun cs => ⟨cs⟩)

/-- filePath = path.join(userDir, req.params.filename) — lines 360 and 370.
No containment check follows the join in either route. -/
def memberFilePath (root : JsPath) (filename : String) : JsPath :=
  joinPath root (splitSegs filename)

/-- Parent directory of a path: all but the last segment. -/
def JsPath.parent (p : JsPath) : JsPath := ⟨p.absolute, p.segs.dropLast⟩

/-- Outcome of the download and delete member operations: the routes only
distinguish a missing path (404) from the path they then serve or unlink. -/
inductive MemberOutcome where
  | notFound
  | ok (filePath : JsPath)
deriving DecidableEq

/-- GET /download/:filename (358-365) over the set of existing file paths:
join, check existence, serve the joined path. -/
def downloadFile (existing : List JsPath) (root : JsPath) (filename : String) :
    MemberOutcome :=
  let fp := memberFilePath root filename
  if fp ∈ existing then MemberOutcome.ok fp else MemberOutcome.notFound

/-- DELETE /api/files/:filename (368-379): join, check existence, unlink. -/
def deleteFile (existing : List JsPath) (root : JsPath) (filename : String) :
    MemberOutcome × List JsPath :=
  let fp := memberFilePath root filename
  if fp ∈ existing then (MemberOutcome.ok fp, existing.filter (fun q => q != fp))
  else (MemberOutcome.notFound, existing)

/-! ### getUserUploadDir (server.js 18-23) -/

/-- The base upload directory path.join(__dirname, uploads); the __dirname
of the deployment is fixed here to a representative value. -/
def UPLOAD_BASE_DIR : String := "/app/uploads"

/-- JavaScript falsiness of the user_folder value loaded into the session:
undefined, null and the empty string are falsy. -/
def folderFalsy : Option String → Bool
  | none => true
  | some s => s = ""

/-- getUserUploadDir (server.js 18-23): path.join(UPLOAD_BASE_DIR, user_id)
when the folder is falsy, else path.join(UPLOAD_BASE_DIR, userFolder). The
account layer supplies separator-free folder names (database.js 50 sets
user_folder to the username), for which path.join is plain concatenation. -/
def getUserUploadDir (userId : Nat) (userFolder : Option String) : String :=
  if folderFalsy userFolder then
    UPLOAD_BASE_DIR ++ "/" ++ ("user_" ++ toString userId)
  else
    UPLOAD_BASE_DIR ++ "/" ++ userFolder.getD ""

/-! ### Helper lemmas about the write and rollback folds -/

/-- A truncating write never removes a name from the directory. -/
theorem any_name_writeEntry (n : String) (g : IncomingFile) (files : List Entry)
    (h : files.any (fun e => e.name = n) = true) :
    (writeEntry files g).any (fun e => e.name = n) = true := by
  unfold writeEntry
  split
  · rcases List.any_eq_true.mp h with ⟨e, he, hpe⟩
    refine List.any_eq_true.mpr
      ⟨(if e.name = g.originalname then ⟨e.name, g.size, g.data⟩ else e),
        List.mem_map_of_mem _ he, ?_⟩
    by_cases hc : e.name = g.originalname
    · rw [if_pos hc]
      simpa using hpe
    · rw [if_neg hc]
      exact hpe
  · simp [List.any_append, h]

/-- The written filename is present after its write. -/
theorem any_name_writeEntry_self (g : IncomingFile) (files : List Entry) :
    (writeEntry files g).any (fun e => e.name = g.originalname) = true := by
  unfold writeEntry
  split
  case isTrue h =>
    rcases List.any_eq_true.mp h with ⟨e, he, hpe⟩
    refine List.any_eq_true.mpr ⟨_, List.mem_map_of_mem _ he, ?_⟩
    have hen : e.name = g.originalname := by simpa using hpe
    simp [hen]
  case isFalse h =>
    refine List.any_eq_true.mpr ⟨⟨g.originalname, g.size, g.data⟩, ?_, by simp⟩
    simp

/-- Presence of a name survives writing the whole batch. -/
theorem any_name_multerWrite (n : String) (batch : List IncomingFile) (files : List Entry)
    (h : files.any (fun e => e.name = n) = true) :
    (multerWrite files batch).any (fun e => e.name = n) = true := by
  induction batch generalizing files with
  | nil => exact h
  | cons f rest ih => exact ih _ (any_name_writeEntry n f files h)

/-- After multer wrote the batch, every batch filename is present in the
directory. -/
theorem batch_names_present (batch : List IncomingFile) (files : List Entry) :
    ∀ f ∈ batch, (multerWrite files batch).any (fun e => e.name = f.originalname) = true := by
  induction batch generalizing files with
  | nil => intro f hf; cases hf
  | cons g rest ih =>
    intro f hf
    rcases List.mem_cons.mp hf with hEq | hmem
    · subst hEq
      exact any_name_multerWrite _ rest _ (any_name_writeEntry_self f files)
    · exact ih (writeEntry files g) f hmem

/-- When the batch filenames are pairwise distinct and all present, the
cleanup loop completes without throwing and leaves exactly the entries
whose names are not batch filenames. -/
theorem rollback_nodup (batch : List IncomingFile) (files : List Entry)
    (hpres : ∀ f ∈ batch, files.any (fun e => e.name = f.originalname) = true)
    (hnodup : (batch.map (fun f => f.originalname)).Nodup) :
    rollback files batch =
      (false, files.filter fun e => batch.all fun f => e.name != f.originalname) := by
  induction batch generalizing files with
  | nil => simp [rollback]
  | cons f rest ih =>
    have hf := hpres f (List.mem_cons_self f rest)
    have hstep : rollback files (f :: rest) =
        rollback (files.filter fun e => e.name != f.originalname) rest := by
      simp [rollback, unlinkSync, hf]
    have hcons : (∀ g ∈ rest, ¬ g.originalname = f.originalname) ∧
        (rest.map (fun g => g.originalname)).Nodup := by
      simpa using hnodup
    have hpres2 : ∀ g ∈ rest,
        (files.filter fun e => e.name != f.originalname).any
          (fun e => e.name = g.originalname) = true := by
      intro g hg
      rcases List.any_eq_true.mp (hpres g (List.mem_cons_of_mem f hg)) with ⟨e, he, hpe⟩
      have hen : e.name = g.originalname := by simpa using hpe
      refine List.any_eq_true.mpr ⟨e, List.mem_filter.mpr ⟨he, ?_⟩, hpe⟩
      simpa [bne_iff_ne, hen] using hcons.1 g hg
    rw [hstep, ih _ hpres2 hcons.2, List.filter_filter]
    simp only [Prod.mk.injEq, true_and]
    refine List.filter_congr (fun e _ => ?_)
    simp [List.all_cons, Bool.and_comm]

/-- The result selector of the failure paths never patterns as accepted. -/
theorem isAccepted_cleanup (c : Bool) (u o : Nat) :
    (if c then UploadResult.thrown else UploadResult.rejected u o).isAccepted = false := by
  cases c <;> rfl

/-- A truncating overwrite keeps every name in place, so filtering by a
name-determined predicate that rejects the written name ignores it. -/
theorem filter_map_overwrite (P : Entry → Bool) (f : IncomingFile)
    (hhit : ∀ e : Entry, e.name = f.originalname → P e = false) :
    ∀ files : List Entry,
      (files.map (fun e =>
          if e.name = f.originalname then ⟨e.name, f.size, f.data⟩ else e)).filter P
        = files.filter P := by
  intro files
  induction files with
  | nil => rfl
  | cons e es ih =>
    by_cases h : e.name = f.originalname
    · have hP : P e = false := hhit e h
      have hP2 : P ⟨f.originalname, f.size, f.data⟩ = false := hhit _ rfl
      simp [h, List.filter_cons, hP, hP2, ih]
    · simp [h, List.filter_cons, ih]

/-- One multer write is invisible to a filter by a name-determined predicate
that rejects the written name. -/
theorem filter_writeEntry (P : Entry → Bool) (f : IncomingFile)
    (hhit : ∀ e : Entry, e.name = f.originalname → P e = false)
    (files : List Entry) :
    (writeEntry files f).filter P = files.filter P := by
  unfold writeEntry
  split
  · exact filter_map_overwrite P f hhit files
  · rw [List.filter_append]
    have hP : P ⟨f.originalname, f.size, f.data⟩ = false := hhit _ rfl
    simp [List.filter_cons, hP]

/-- Writing the whole batch is invisible to a filter by a name-determined
predicate that rejects every batch filename. -/
theorem filter_multerWrite (P : Entry → Bool) (batch : List IncomingFile)
    (hb : ∀ f ∈ batch, ∀ e : Entry, e.name = f.originalname → P e = false) :
    ∀ files : List Entry, (multerWrite files batch).filter P = files.filter P := by
  induction batch with
  | nil => intro files; rfl
  | cons f rest ih =>
    intro files
    have h1 : multerWrite files (f :: rest) = multerWrite (writeEntry files f) rest := rfl
    rw [h1, ih (fun g hg => hb g (List.mem_cons_of_mem f hg))]
    exact filter_writeEntry P f (hb f (List.mem_cons_self f rest)) files

/-- The batch-name filter used by the rollback lemmas rejects every batch
filename. -/
theorem batchFilter_hits (batch : List IncomingFile) :
    ∀ f ∈ batch, ∀ e : Entry,
      e.name = f.originalname →
        (batch.all fun g => e.name != g.originalname) = false := by
  intro f hf e he
  exact List.all_eq_false.mpr ⟨f, hf, by simp [he]⟩

/-- The usage percentage of line 351 for a positive quota is the clamped
finite rational. -/
theorem usagePercentage_pos (n q : Nat) (hq : q ≠ 0) :
    usagePercentage n q = JsNumber.val (min 100 ((n : ℚ) / (q : ℚ) * 100)) := by
  have h : ((q : ℚ)) ≠ 0 := Nat.cast_ne_zero.mpr hq
  simp [usagePercentage, jsDiv, h, jsMul100, jsMin100]

/-! ### Claim theorems -/

/-- C1: the spec scenario — quota 10 MB, pre-upload usage 9 MiB (one stored
file), one incoming 2 MiB file — is rejected, but the route scans usage
after multer has already written the batch and then adds the declared sizes
on top, so the batch is counted twice: the reported used figure is 11 MiB
and overBy is 3 MiB (3,145,728 bytes), not the 1,048,576 bytes the claim
derives from a pre-write usage figure. The batch file itself is rolled back,
leaving only the pre-existing file. -/
theorem upload_overBy_double_counts_batch :
    uploadTransaction (some [⟨"old.bin", 9437184, 0⟩]) (some 10) [⟨"new.bin", 2097152, 1⟩]
      = (UploadResult.rejected 11534336 3145728, some [⟨"old.bin", 9437184, 0⟩])
    ∧ (3145728 : Nat) ≠ 1048576 := by
  exact ⟨by decide, by decide⟩

/-- C2 counterexample: a rejected batch whose filename a.txt collides with a
stored file. multer first overwrites a.txt in place; the rollback then
unlinks every batch path, so the pre-existing a.txt (5 MiB, tag 0) is gone
after the rejection and the root is not restored. -/
theorem rejected_batch_collision_loses_file :
    (uploadTransaction (some [⟨"a.txt", 5242880, 0⟩, ⟨"b.txt", 4194304, 1⟩]) (some 10)
        [⟨"a.txt", 2097152, 2⟩, ⟨"c.txt", 8388608, 3⟩]).1.isRejected = true
    ∧ (uploadTransaction (some [⟨"a.txt", 5242880, 0⟩, ⟨"b.txt", 4194304, 1⟩]) (some 10)
        [⟨"a.txt", 2097152, 2⟩, ⟨"c.txt", 8388608, 3⟩]).2 = some [⟨"b.txt", 4194304, 1⟩]
    ∧ (⟨"a.txt", 5242880, 0⟩ : Entry) ∈ ([⟨"a.txt", 5242880, 0⟩, ⟨"b.txt", 4194304, 1⟩] : List Entry)
    ∧ (⟨"a.txt", 5242880, 0⟩ : Entry) ∉ ([⟨"b.txt", 4194304, 1⟩] : List Entry) := by
  refine ⟨by decide, by decide, by decide, by decide⟩

/-- C2 amended: after a rejected batch whose filenames are pairwise
distinct, the user root holds exactly the pre-upload entries whose names are
not batch filenames — files not named in the batch are untouched and no
batch file remains, but a pre-existing file whose name collides with a batch
filename has been overwritten during staging and is then deleted by the
rollback. A batch that repeats a filename instead makes the second
fs.unlinkSync of the shared path throw ENOENT, aborting the cleanup with
later batch files left on disk and the rejection response never sent (shown
for the batch a, a, b under quota 0: b remains). -/
theorem rejected_batch_root_filtered (files : List Entry) (quotaMB : Nat)
    (batch : List IncomingFile)
    (hnodup : (batch.map (fun f => f.originalname)).Nodup)
    (hrej : (uploadTransaction (some files) (some quotaMB) batch).1.isRejected = true) :
    (uploadTransaction (some files) (some quotaMB) batch).2 =
      some (files.filter fun e => batch.all fun f => e.name != f.originalname)
    ∧ uploadTransaction (some ([] : List Entry)) (some 0)
        [⟨"a", 1, 0⟩, ⟨"a", 1, 1⟩, ⟨"b", 1, 2⟩]
        = (UploadResult.thrown, some [⟨"b", 1, 2⟩]) := by
  refine ⟨?_, by decide⟩
  by_cases hb : batch = []
  · rw [hb] at hrej
    simp [uploadTransaction, UploadResult.isRejected] at hrej
  · by_cases hq : quotaMB * 1024 * 1024 <
        usageOf (multerWrite files batch) + totalSize batch
    · have hroll := rollback_nodup batch (multerWrite files batch)
        (batch_names_present batch files) hnodup
      have h2 : (uploadTransaction (some files) (some quotaMB) batch).2 =
          some ((rollback (multerWrite files batch) batch).2) := by
        simp [uploadTransaction, hb, hq]
      rw [h2, hroll]
      exact congrArg some
        (filter_multerWrite _ batch (batchFilter_hits batch) files)
    · have h1 : (uploadTransaction (some files) (some quotaMB) batch).1.isRejected = false := by
        simp [uploadTransaction, hb, hq, UploadResult.isRejected]
      rw [h1] at hrej
      exact absurd hrej (by simp)

/-- C2 witness: a concrete rejected batch (quota 0) with one distinct
filename and no collisions, where the filter characterization coincides
with full restoration. -/
theorem rejected_batch_root_filtered_witness :
    ((uploadTransaction (some [⟨"w", 1, 0⟩]) (some 0) [⟨"x", 1, 1⟩]).2 =
      some (([⟨"w", 1, 0⟩] : List Entry).filter fun e =>
        ([⟨"x", 1, 1⟩] : List IncomingFile).all fun f => e.name != f.originalname))
    ∧ uploadTransaction (some ([] : List Entry)) (some 0)
        [⟨"a", 1, 0⟩, ⟨"a", 1, 1⟩, ⟨"b", 1, 2⟩]
        = (UploadResult.thrown, some [⟨"b", 1, 2⟩]) :=
  rejected_batch_root_filtered [⟨"w", 1, 0⟩] 0 [⟨"x", 1, 1⟩] (by decide) (by decide)

/-- C3: with a positive quota, the admission decision of lines 327-337
admits exactly when the usage figure the route computed plus the declared
total is at most storage_quota_mb * 1024 * 1024 — inclusive at the boundary,
rejecting one byte over. (The usage figure itself is the post-write scan;
its relation to the pre-write usage is the subject of C1.) -/
theorem upload_admits_iff_within_quota (files : List Entry) (quotaMB : Nat)
    (batch : List IncomingFile) (hQ : 0 < quotaMB) (hne : batch ≠ []) :
    ((uploadTransaction (some files) (some quotaMB) batch).1.isAccepted = true ↔
      usageOf (multerWrite files batch) + totalSize batch ≤ quotaMB * 1024 * 1024)
    ∧ (usageOf (multerWrite files batch) + totalSize batch = quotaMB * 1024 * 1024 →
        (uploadTransaction (some files) (some quotaMB) batch).1.isAccepted = true)
    ∧ (usageOf (multerWrite files batch) + totalSize batch = quotaMB * 1024 * 1024 + 1 →
        (uploadTransaction (some files) (some quotaMB) batch).1.isAccepted = false) := by
  by_cases hq : quotaMB * 1024 * 1024 < usageOf (multerWrite files batch) + totalSize batch
  · have h1 : (uploadTransaction (some files) (some quotaMB) batch).1.isAccepted = false := by
      simp [uploadTransaction, hne, hq, isAccepted_cleanup]
    refine ⟨by rw [h1]; simp; omega, fun hEq => absurd hEq (by omega), fun _ => h1⟩
  · have h1 : (uploadTransaction (some files) (some quotaMB) batch).1.isAccepted = true := by
      simp [uploadTransaction, hne, hq, UploadResult.isAccepted]
    refine ⟨by rw [h1]; simp; omega, fun _ => h1, fun hEq => absurd hEq (by omega)⟩

/-- C3 witness: one 1-byte file into an empty root with a 1 MB quota. -/
theorem upload_admits_iff_within_quota_witness :
    ((uploadTransaction (some ([] : List Entry)) (some 1) [⟨"a", 1, 0⟩]).1.isAccepted = true ↔
      usageOf (multerWrite [] [⟨"a", 1, 0⟩]) + totalSize [⟨"a", 1, 0⟩] ≤ 1 * 1024 * 1024)
    ∧ (usageOf (multerWrite [] [⟨"a", 1, 0⟩]) + totalSize [⟨"a", 1, 0⟩] = 1 * 1024 * 1024 →
        (uploadTransaction (some ([] : List Entry)) (some 1) [⟨"a", 1, 0⟩]).1.isAccepted = true)
    ∧ (usageOf (multerWrite [] [⟨"a", 1, 0⟩]) + totalSize [⟨"a", 1, 0⟩] = 1 * 1024 * 1024 + 1 →
        (uploadTransaction (some ([] : List Entry)) (some 1) [⟨"a", 1, 0⟩]).1.isAccepted = false) :=
  upload_admits_iff_within_quota [] 1 [⟨"a", 1, 0⟩] (by decide) (by decide)

/-- C4 counterexample: with the user root /srv/uploads, the requested
filename ../../etc/passwd joins and normalizes to /etc/passwd, whose parent
is not the root; the route has no containment check and, the file existing,
serves it instead of rejecting with PathTraversal. -/
theorem traversal_download_not_rejected :
    (memberFilePath ⟨true, ["srv", "uploads"]⟩ "../../etc/passwd").parent
        ≠ (⟨true, ["srv", "uploads"]⟩ : JsPath)
    ∧ downloadFile [⟨true, ["etc", "passwd"]⟩] ⟨true, ["srv", "uploads"]⟩ "../../etc/passwd"
        = MemberOutcome.ok ⟨true, ["etc", "passwd"]⟩ := by
  exact ⟨by decide, by decide⟩

/-- C4 amended: download and delete resolve the member path as a bare
path.join with no containment check. Dotdot segments escape the root and the
operations proceed there (download serves, delete unlinks, subject only to
existence); a leading slash is neutralized by join, so /etc/passwd resolves
under the root (though not as a direct child); a plain name resolves to a
direct child of the root. Shown at the root /srv/uploads/alice. -/
theorem member_resolution_without_containment :
    memberFilePath ⟨true, ["srv", "uploads", "alice"]⟩ "../../etc/passwd"
        = ⟨true, ["srv", "etc", "passwd"]⟩
    ∧ (memberFilePath ⟨true, ["srv", "uploads", "alice"]⟩ "../../etc/passwd").parent
        ≠ (⟨true, ["srv", "uploads", "alice"]⟩ : JsPath)
    ∧ downloadFile [⟨true, ["srv", "etc", "passwd"]⟩] ⟨true, ["srv", "uploads", "alice"]⟩
        "../../etc/passwd" = MemberOutcome.ok ⟨true, ["srv", "etc", "passwd"]⟩
    ∧ (deleteFile [⟨true, ["srv", "etc", "passwd"]⟩] ⟨true, ["srv", "uploads", "alice"]⟩
        "../../etc/passwd").2 = []
    ∧ memberFilePath ⟨true, ["srv", "uploads", "alice"]⟩ "/etc/passwd"
        = ⟨true, ["srv", "uploads", "alice", "etc", "passwd"]⟩
    ∧ (memberFilePath ⟨true, ["srv", "uploads", "alice"]⟩ "/etc/passwd").parent
        ≠ (⟨true, ["srv", "uploads", "alice"]⟩ : JsPath)
    ∧ memberFilePath ⟨true, ["srv", "uploads", "alice"]⟩ "report.pdf"
        = ⟨true, ["srv", "uploads", "alice", "report.pdf"]⟩
    ∧ (memberFilePath ⟨true, ["srv", "uploads", "alice"]⟩ "report.pdf").parent
        = (⟨true, ["srv", "uploads", "alice"]⟩ : JsPath) := by
  refine ⟨by decide, by decide, by decide, by decide, by decide, by decide, by decide, by decide⟩

/-- C5 counterexample: with storage_quota_mb = 0, quotaBytes is 0 and a
1-byte upload into an empty root is rejected (newTotal 2 after the double
count, overBy 2), not admitted as unlimited. -/
theorem quota_zero_rejects_positive_batch :
    (uploadTransaction (some ([] : List Entry)) (some 0) [⟨"a.bin", 1, 0⟩]).1
        = UploadResult.rejected 1 2
    ∧ (uploadTransaction (some ([] : List Entry)) (some 0) [⟨"a.bin", 1, 0⟩]).1.isAccepted
        = false := by
  exact ⟨by decide, by decide⟩

/-- C5 amended: quotaBytes = 0 is not unlimited — the route then admits a
batch exactly when the post-write scan plus the declared total is 0, and an
accepted response under a zero quota reports usage_percentage NaN (0/0),
not 0; for quotaBytes > 0 an accepted response reports
min(100, newUsage / quotaBytes * 100). -/
theorem quota_zero_and_percent_semantics (files : List Entry) (batch : List IncomingFile)
    (hne : batch ≠ []) :
    ((uploadTransaction (some files) (some 0) batch).1.isAccepted = true ↔
        usageOf (multerWrite files batch) + totalSize batch = 0)
    ∧ (∀ s p, (uploadTransaction (some files) (some 0) batch).1 =
        UploadResult.accepted s 0 p → p = JsNumber.nan)
    ∧ (∀ quotaMB : Nat, 0 < quotaMB →
        (uploadTransaction (some files) (some quotaMB) batch).1.isAccepted = true →
        (uploadTransaction (some files) (some quotaMB) batch).1 =
          UploadResult.accepted (usageOf (multerWrite files batch) + totalSize batch)
            (quotaMB * 1024 * 1024)
            (JsNumber.val (min 100
              (((usageOf (multerWrite files batch) + totalSize batch : Nat) : ℚ) /
                ((quotaMB * 1024 * 1024 : Nat) : ℚ) * 100)))) := by
  refine ⟨?_, ?_, ?_⟩
  · by_cases hz : usageOf (multerWrite files batch) + totalSize batch = 0
    · have hacc : (uploadTransaction (some files) (some 0) batch).1.isAccepted = true := by
        simp [uploadTransaction, hne, hz, UploadResult.isAccepted]
      rw [hacc]
      simp [hz]
    · have hor : 0 < usageOf (multerWrite files batch) ∨ 0 < totalSize batch := by
        omega
      have hacc : (uploadTransaction (some files) (some 0) batch).1.isAccepted = false := by
        simp [uploadTransaction, hne, hor, isAccepted_cleanup]
      rw [hacc]
      simp [hz]
  · intro s p hsp
    by_cases hz : usageOf (multerWrite files batch) + totalSize batch = 0
    · have hval : (uploadTransaction (some files) (some 0) batch).1 =
          UploadResult.accepted 0 0 (usagePercentage 0 0) := by
        simp [uploadTransaction, hne, hz]
      rw [hval] at hsp
      injection hsp with h1 h2 h3
      rw [← h3]
      norm_num [usagePercentage, jsDiv, jsMul100, jsMin100]
    · have hor : 0 < usageOf (multerWrite files batch) ∨ 0 < totalSize batch := by
        omega
      have hacc : (uploadTransaction (some files) (some 0) batch).1.isAccepted = false := by
        simp [uploadTransaction, hne, hor, isAccepted_cleanup]
      have := congrArg UploadResult.isAccepted hsp
      rw [hacc] at this
      simp [UploadResult.isAccepted] at this
  · intro quotaMB hpos hacc
    have hq : ¬ (quotaMB * 1024 * 1024 <
        usageOf (multerWrite files batch) + totalSize batch) := by
      by_contra hlt
      have hrej : (uploadTransaction (some files) (some quotaMB) batch).1.isAccepted = false := by
        simp [uploadTransaction, hne, hlt, isAccepted_cleanup]
      rw [hrej] at hacc
      exact absurd hacc (by simp)
    have h1 : (uploadTransaction (some files) (some quotaMB) batch).1 =
        UploadResult.accepted (usageOf (multerWrite files batch) + totalSize batch)
          (quotaMB * 1024 * 1024)
          (usagePercentage (usageOf (multerWrite files batch) + totalSize batch)
            (quotaMB * 1024 * 1024)) := by
      simp [uploadTransaction, hne, hq]
    rw [h1, usagePercentage_pos _ _ (by omega)]

/-- C5 witness: a 1-byte batch into an empty root; under quota 0 it is
rejected (both sides of the characterization false), and under any positive
quota the accepted response carries the clamped finite percentage. -/
theorem quota_zero_and_percent_semantics_witness :
    ((uploadTransaction (some ([] : List Entry)) (some 0) [⟨"a", 1, 0⟩]).1.isAccepted = true ↔
        usageOf (multerWrite [] [⟨"a", 1, 0⟩]) + totalSize [⟨"a", 1, 0⟩] = 0)
    ∧ (∀ s p, (uploadTransaction (some ([] : List Entry)) (some 0) [⟨"a", 1, 0⟩]).1 =
        UploadResult.accepted s 0 p → p = JsNumber.nan)
    ∧ (∀ quotaMB : Nat, 0 < quotaMB →
        (uploadTransaction (some ([] : List Entry)) (some quotaMB) [⟨"a", 1, 0⟩]).1.isAccepted
          = true →
        (uploadTransaction (some ([] : List Entry)) (some quotaMB) [⟨"a", 1, 0⟩]).1 =
          UploadResult.accepted (usageOf (multerWrite [] [⟨"a", 1, 0⟩]) + totalSize [⟨"a", 1, 0⟩])
            (quotaMB * 1024 * 1024)
            (JsNumber.val (min 100
              (((usageOf (multerWrite [] [⟨"a", 1, 0⟩]) + totalSize [⟨"a", 1, 0⟩] : Nat) : ℚ) /
                ((quotaMB * 1024 * 1024 : Nat) : ℚ) * 100)))) :=
  quota_zero_and_percent_semantics [] [⟨"a", 1, 0⟩] (by decide)

/-- C6 counterexample: parseFloat strips the trailing zero that toFixed(2)
produced, so 1536 bytes does not render as the two-decimal string the claim
gives. -/
theorem formatFileSize_1536_strips_trailing_zero :
    formatFileSize 1536 ≠ "1.50 KB" := by decide

/-- C6 amended: formatFileSize uses the fixed base-1024 scale Bytes, KB, MB,
GB, TB, choosing the largest unit with value at least 1, rounds to at most
two decimal places and drops trailing zeros (parseFloat of toFixed(2)); in
particular formatFileSize 0 is the string 0 Bytes and formatFileSize 1536 is
1.5 KB (not 1.50 KB). -/
theorem formatFileSize_values :
    formatFileSize 0 = "0 Bytes" ∧ formatFileSize 1536 = "1.5 KB"
    ∧ formatFileSize 1 = "1 Bytes" ∧ formatFileSize 1023 = "1023 Bytes"
    ∧ formatFileSize 1024 = "1 KB" ∧ formatFileSize 1075 = "1.05 KB"
    ∧ formatFileSize 1127 = "1.1 KB" ∧ formatFileSize 1048576 = "1 MB"
    ∧ formatFileSize (1024 ^ 3) = "1 GB" ∧ formatFileSize (1024 ^ 4) = "1 TB"
    ∧ formatFileSize 10485760 = "10 MB" := by
  refine ⟨by decide, by decide, by decide, by decide, by decide, by decide, by decide,
    by decide, by decide, by decide, by decide⟩

/-- C7: a nonexistent user directory scans to usage 0 (upload route,
lines 310-317) and lists as the empty sequence (catalog route,
lines 227-229) — neither is an error. -/
theorem missing_dir_scan_zero_and_list_empty :
    scanUsage none = 0 ∧ listFiles none = [] :=
  ⟨rfl, rfl⟩

/-- C8: for an existing directory the catalog returns exactly one descriptor
(name, size, sizeFormatted, modified, url) per direct entry — the output is
a permutation of the per-entry descriptors — and the output is ordered by
modification time descending. -/
theorem listFiles_sorted_desc_perm (entries : List DirEntry) :
    (listFiles (some entries)).Perm (entries.map mkDescriptor)
    ∧ (listFiles (some entries)).Pairwise (fun a b => b.modified ≤ a.modified) := by
  constructor
  · exact List.mergeSort_perm (entries.map mkDescriptor) descLE
  · have h := @List.sorted_mergeSort _ descLE
      (fun a b c hab hbc => by
        simp only [descLE, decide_eq_true_eq] at hab hbc ⊢
        omega)
      (fun a b => by
        simp only [descLE, Bool.or_eq_true, decide_eq_true_eq]
        omega)
      (entries.map mkDescriptor)
    exact h.imp (fun hab => by simpa [descLE] using hab)

/-- C9: the storage root is a pure function of the folder key and user id:
a present, nonempty folder name resolves to baseDir/folderName, and an
absent or empty folder name falls back to baseDir/user_id. -/
theorem storage_root_resolution (userId : Nat) (s : String) (hs : s ≠ "") :
    getUserUploadDir userId (some s) = UPLOAD_BASE_DIR ++ "/" ++ s
    ∧ getUserUploadDir userId none = UPLOAD_BASE_DIR ++ "/" ++ ("user_" ++ toString userId)
    ∧ getUserUploadDir userId (some "")
        = UPLOAD_BASE_DIR ++ "/" ++ ("user_" ++ toString userId) := by
  refine ⟨?_, rfl, rfl⟩
  simp [getUserUploadDir, folderFalsy, hs]

/-- C9 witness: user 7 with folder alice, and the fallbacks. -/
theorem storage_root_resolution_witness :
    getUserUploadDir 7 (some "alice") = UPLOAD_BASE_DIR ++ "/" ++ "alice"
    ∧ getUserUploadDir 7 none = UPLOAD_BASE_DIR ++ "/" ++ ("user_" ++ toString 7)
    ∧ getUserUploadDir 7 (some "") = UPLOAD_BASE_DIR ++ "/" ++ ("user_" ++ toString 7) :=
  storage_root_resolution 7 "alice" (by decide)

/-- C10 counterexample: when the quota lookup fails after multer wrote a
batch whose filename doc.txt collides with a stored file, the cleanup
unlinks every batch path, so the pre-existing doc.txt (size 50, tag 1) is
lost and the root is not left as it was before the batch. -/
theorem db_failure_collision_loses_file :
    (uploadTransaction (some [⟨"keep.txt", 100, 0⟩, ⟨"doc.txt", 50, 1⟩]) none
        [⟨"doc.txt", 70, 2⟩]).1 = UploadResult.dbError
    ∧ (uploadTransaction (some [⟨"keep.txt", 100, 0⟩, ⟨"doc.txt", 50, 1⟩]) none
        [⟨"doc.txt", 70, 2⟩]).2 = some [⟨"keep.txt", 100, 0⟩] := by
  exact ⟨by decide, by decide⟩

/-- C10 amended: when the quota lookup fails after a batch with pairwise
distinct filenames was written, every batch file is deleted and a 500 error
returned, leaving exactly the pre-upload entries whose names are not batch
filenames — identical to the quota-rejection rollback, including the loss of
a pre-existing file whose name collides with a batch filename. A batch that
repeats a filename instead makes the second fs.unlinkSync throw ENOENT,
aborting the cleanup with later batch files left on disk and the error
response never sent (shown for the batch a, a, b: b remains). -/
theorem db_failure_root_filtered (files : List Entry) (batch : List IncomingFile)
    (hne : batch ≠ []) (hnodup : (batch.map (fun f => f.originalname)).Nodup) :
    (uploadTransaction (some files) none batch).1 = UploadResult.dbError
    ∧ (uploadTransaction (some files) none batch).2 =
        some (files.filter fun e => batch.all fun f => e.name != f.originalname)
    ∧ uploadTransaction (some ([] : List Entry)) none
        [⟨"a", 1, 0⟩, ⟨"a", 1, 1⟩, ⟨"b", 1, 2⟩]
        = (UploadResult.thrown, some [⟨"b", 1, 2⟩]) := by
  have hroll := rollback_nodup batch (multerWrite files batch)
    (batch_names_present batch files) hnodup
  refine ⟨?_, ?_, by decide⟩
  · simp [uploadTransaction, hne, hroll]
  · have h2 : (uploadTransaction (some files) none batch).2 =
        some ((multerWrite files batch).filter fun e =>
          batch.all fun f => e.name != f.originalname) := by
      simp [uploadTransaction, hne, hroll]
    rw [h2]
    exact congrArg some (filter_multerWrite _ batch (batchFilter_hits batch) files)

/-- C10 witness: one batch file colliding with nothing; the root is exactly
restored. -/
theorem db_failure_root_filtered_witness :
    (uploadTransaction (some [⟨"k", 1, 0⟩]) none [⟨"d", 2, 1⟩]).1 = UploadResult.dbError
    ∧ (uploadTransaction (some [⟨"k", 1, 0⟩]) none [⟨"d", 2, 1⟩]).2 =
        some (([⟨"k", 1, 0⟩] : List Entry).filter fun e =>
          ([⟨"d", 2, 1⟩] : List IncomingFile).all fun f => e.name != f.originalname)
    ∧ uploadTransaction (some ([] : List Entry)) none
        [⟨"a", 1, 0⟩, ⟨"a", 1, 1⟩, ⟨"b", 1, 2⟩]
        = (UploadResult.thrown, some [⟨"b", 1, 2⟩]) :=
  db_failure_root_filtered [⟨"k", 1, 0⟩] [⟨"d", 2, 1⟩] (by decide) (by decide)

end UploadServer
